import Mathlib

/-!
Verification of the MediSyn prescription-verification engine.

The definitions below are a shallow embedding of the Python sources:
`granite_utils.py` (LRU cache), `extract_medicines.py` (medicine and
frequency extraction), `main.py` (interaction checking and the dosage
entry point) and `dosage_checker.py` (dosage verification).  Pure Python
functions become Lean functions; Python floats become rationals; Python
exceptions become `Except`-valued results where control flow depends on
them; f-string rendering of numeric payloads is kept structural
(inductive issue/recommendation values carrying the numbers) so that no
float-formatting semantics need to be reproduced.
-/

/-! ## Basic Python-semantics helpers -/

/-- Does `a` occur as a contiguous sublist of `b`? -/
def infixCheck (a : List Char) : List Char → Bool
  | [] => a.isEmpty
  | c :: cs => a.isPrefixOf (c :: cs) || infixCheck a cs

/-- Python `a in b` on strings: `a` occurs as a contiguous substring of `b`. -/
def pyIn (a b : String) : Bool := infixCheck a.data b.data

/-- Python `str.lower()` (ASCII; all strings in the tables are ASCII). -/
def pyLower (s : String) : String := ⟨s.data.map Char.toLower⟩

/-- Python whitespace characters recognised by `\s` and `str.strip()`. -/
def isSpaceChar (c : Char) : Bool := c = ' ' || c = '\t' || c = '\n' || c = '\r'

/-- Python `str.strip()`. -/
def pyStrip (s : String) : String :=
  ⟨((s.data.dropWhile isSpaceChar).reverse.dropWhile isSpaceChar).reverse⟩

/-- A regex word character `\w` = `[a-zA-Z0-9_]`. -/
def isWordChar (c : Char) : Bool := c.isAlpha || c.isDigit || c = '_'

/-- Association-list lookup modelling Python `dict.get(key, default)`
for dicts built by insertion without key collisions. -/
def pyDictGet (l : List (String × String)) (key dflt : String) : String :=
  match l.find? (fun p => p.1 = key) with
  | some p => p.2
  | none => dflt

/-! ## LRU cache (`granite_utils.py`, class `LRUCache`, lines 15-30)

The `OrderedDict` is modelled as a list of key-value pairs, front =
least recently used, back = most recently used.  `move_to_end` moves an
entry to the back; `popitem(last=False)` removes the front entry. -/

structure LRUCache where
  cache : List (String × String)
  capacity : Nat

namespace LRUCache

/-- `get`: on a hit, `move_to_end(key)` then return the value; the
mutated cache is returned alongside.  On a miss return `none`. -/
def get (c : LRUCache) (key : String) : Option String × LRUCache :=
  match c.cache.find? (fun p => p.1 = key) with
  | some p =>
      (some p.2, { c with cache := c.cache.filter (fun q => ¬ q.1 = key) ++ [p] })
  | none => (none, c)

/-- `put`: `self.cache[key] = value` (update-or-append) followed by
`move_to_end(key)` puts the entry at the back; then if the length
exceeds the capacity, `popitem(last=False)` drops the front entry. -/
def put (c : LRUCache) (key value : String) : LRUCache :=
  if c.capacity < (c.cache.filter (fun q => ¬ q.1 = key) ++ [(key, value)]).length then
    { c with cache := (c.cache.filter (fun q => ¬ q.1 = key) ++ [(key, value)]).tail }
  else
    { c with cache := c.cache.filter (fun q => ¬ q.1 = key) ++ [(key, value)] }

/-- Keys currently stored, front (least recent) first. -/
def keys (c : LRUCache) : List String := c.cache.map Prod.fst

end LRUCache

/-- If the key to insert is absent, the pre-eviction list is the old
list with the new entry appended. -/
theorem lru_filter_of_not_mem (c : LRUCache) (k : String)
    (h : k ∉ c.keys) : c.cache.filter (fun q => ¬ q.1 = k) = c.cache := by
  apply List.filter_eq_self.mpr
  intro p hp
  have : p.1 ∈ c.keys := List.mem_map_of_mem Prod.fst hp
  by_cases hk : p.1 = k
  · exact absurd (hk ▸ this) h
  · simpa using hk

/-- C9 helper: `put` keeps the size within capacity. -/
theorem lru_put_length_le (c : LRUCache) (k v : String)
    (h : c.cache.length ≤ c.capacity) :
    (c.put k v).cache.length ≤ c.capacity := by
  have hf : (c.cache.filter (fun q => ¬ q.1 = k)).length ≤ c.cache.length :=
    List.length_filter_le _ _
  unfold LRUCache.put
  split
  · rename_i hc
    simp only [List.length_tail, List.length_append, List.length_cons,
      List.length_nil] at hc ⊢
    omega
  · rename_i hc
    simp only [List.length_append, List.length_cons, List.length_nil] at hc ⊢
    omega

/-- C9 helper: inserting a fresh key into a full cache evicts exactly the
front (least-recently-used) entry and appends the new one at the back. -/
theorem lru_put_evicts_lru (c : LRUCache) (k v : String)
    (hfull : c.cache.length = c.capacity) (hk : k ∉ c.keys)
    (hne : c.cache ≠ []) :
    (c.put k v).cache = c.cache.tail ++ [(k, v)] := by
  unfold LRUCache.put
  rw [lru_filter_of_not_mem c k hk]
  have hpos : 0 < c.cache.length := List.length_pos.mpr hne
  have hlt : c.capacity < (c.cache ++ [(k, v)]).length := by
    simp only [List.length_append, List.length_cons, List.length_nil]
    omega
  simp only [hlt, if_true]
  match c, hne with
  | ⟨p :: rest, _⟩, _ => simp

/-- C9: the LRUCache is strictly least-recently-used with `get` counting as a
recency refresh.  (i) With capacity 2, after put(A,_); put(B,_); get(A);
put(C,_), key B is evicted while A and C remain (and the get hit returned
A's value).  (ii) A put never grows the cache beyond its capacity.
(iii) Inserting a fresh key into a full cache evicts exactly the
least-recently-accessed (front) entry, keeping all others. -/
theorem lru_cache_strict_lru :
    ((((((LRUCache.mk [] 2).put "a" "1").put "b" "2").get "a").2.put "c" "3").keys
        = ["a", "c"] ∧
     ((((LRUCache.mk [] 2).put "a" "1").put "b" "2").get "a").1 = some "1") ∧
    (∀ (c : LRUCache) (k v : String),
      c.cache.length ≤ c.capacity → (c.put k v).cache.length ≤ c.capacity) ∧
    (∀ (c : LRUCache) (k v : String),
      c.cache.length = c.capacity → k ∉ c.keys → c.cache ≠ [] →
      (c.put k v).cache = c.cache.tail ++ [(k, v)]) :=
  ⟨⟨by decide, by decide⟩,
   fun c k v h => lru_put_length_le c k v h,
   fun c k v h1 h2 h3 => lru_put_evicts_lru c k v h1 h2 h3⟩

/-- C9 witness: the general parts of `lru_cache_strict_lru` applied at a
concrete full cache and fresh key. -/
theorem lru_cache_strict_lru_witness :
    ((LRUCache.mk [("x", "1"), ("y", "2")] 2).put "z" "3").cache.length ≤ 2 ∧
    ((LRUCache.mk [("x", "1"), ("y", "2")] 2).put "z" "3").cache
      = [("y", "2"), ("z", "3")] :=
  ⟨lru_cache_strict_lru.2.1 (LRUCache.mk [("x", "1"), ("y", "2")] 2) "z" "3"
     (by decide),
   lru_cache_strict_lru.2.2 (LRUCache.mk [("x", "1"), ("y", "2")] 2) "z" "3"
     (by decide) (by decide) (by decide)⟩

/-! ## Medicine extraction (`extract_medicines.py`, class `MedicineExtractor`)

The three regex patterns of the rule-based path (lines 24-28) are embedded
as direct scanners over the character list of the lowercased text.  Each
scanner realises `re.findall` semantics for its specific pattern:
leftmost scanning, non-overlapping matches, greedy runs, alternatives
tried in source order with the trailing `\b` re-checked per alternative. -/

/-- `\b` holds before the head of the remainder (end of text or a
non-word character follows). -/
def atBoundaryHead : List Char → Bool
  | [] => true
  | c :: _ => ¬ isWordChar c

/-- The unit alternation `(mg|g|ml|mcg|units?)` of pattern 1, in source
order, with `units?` expanded greedily (`units` before `unit`). -/
def unitAlts1 : List (List Char) :=
  [['m', 'g'], ['g'], ['m', 'l'], ['m', 'c', 'g'],
   ['u', 'n', 'i', 't', 's'], ['u', 'n', 'i', 't']]

/-- Try the unit alternatives in order; each must be followed by a word
boundary, as in `(mg|g|ml|mcg|units?)\b`. -/
def matchUnitAt : List (List Char) → List Char → Option (List Char)
  | [], _ => none
  | u :: us, rest =>
      if u.isPrefixOf rest && atBoundaryHead (rest.drop u.length) then
        some (rest.drop u.length)
      else matchUnitAt us rest

/-- One attempt of `\b([a-zA-Z]+)\s*(\d+(?:\.\d+)?)\s*(mg|g|ml|mcg|units?)\b`
at the head of `cs` (the leading `\b` is checked by the scanner).  Returns
the first capture (the medicine word) and the remainder after the match. -/
def matchWordDoseUnit (cs : List Char) : Option (List Char × List Char) :=
  let letters := cs.takeWhile Char.isAlpha
  if letters.isEmpty then none else
  let r2 := (cs.dropWhile Char.isAlpha).dropWhile isSpaceChar
  let digits := r2.takeWhile Char.isDigit
  if digits.isEmpty then none else
  let r3 := r2.dropWhile Char.isDigit
  let r4 := match r3 with
            | '.' :: rest =>
                if (rest.takeWhile Char.isDigit).isEmpty then r3
                else rest.dropWhile Char.isDigit
            | _ => r3
  match matchUnitAt unitAlts1 (r4.dropWhile isSpaceChar) with
  | some rest => some (letters, rest)
  | none => none

/-- `re.findall` scan for pattern 1.  `prevWord` tracks whether the
preceding character is a word character (for the leading `\b`); `fuel`
bounds the recursion by the text length. -/
def scanWordDoseUnit : Nat → Bool → List Char → List String
  | 0, _, _ => []
  | _, _, [] => []
  | Nat.succ fuel, prevWord, c :: cs =>
      if ¬ prevWord then
        match matchWordDoseUnit (c :: cs) with
        | some (cap, rest) => ⟨cap⟩ :: scanWordDoseUnit fuel true rest
        | none => scanWordDoseUnit fuel (isWordChar c) cs
      else scanWordDoseUnit fuel (isWordChar c) cs

/-- One attempt of `(?:take|prescribed)\s+([a-zA-Z]+)` at the head of `cs`. -/
def matchTakeWord (cs : List Char) : Option (List Char × List Char) :=
  let kwLen : Option Nat :=
    if (['t', 'a', 'k', 'e'] : List Char).isPrefixOf cs then some 4
    else if (['p', 'r', 'e', 's', 'c', 'r', 'i', 'b', 'e', 'd'] : List Char).isPrefixOf cs
    then some 10 else none
  match kwLen with
  | none => none
  | some n =>
      let r1 := cs.drop n
      if (r1.takeWhile isSpaceChar).isEmpty then none else
      let r2 := r1.dropWhile isSpaceChar
      let letters := r2.takeWhile Char.isAlpha
      if letters.isEmpty then none
      else some (letters, r2.dropWhile Char.isAlpha)

/-- `re.findall` scan for pattern 2 (no boundary assertions in the source
pattern). -/
def scanTakeWord : Nat → List Char → List String
  | 0, _ => []
  | _, [] => []
  | Nat.succ fuel, c :: cs =>
      match matchTakeWord (c :: cs) with
      | some (cap, rest) => ⟨cap⟩ :: scanTakeWord fuel rest
      | none => scanTakeWord fuel cs

/-- Maximal word-character runs of the text, in order.  Pattern 3 is
`\b(name1|name2|...)\b` over the alphabetic vocabulary below; since no
vocabulary word is a prefix of another and all are purely alphabetic,
a match is exactly a word token equal to a vocabulary entry. -/
def wordTokens : Nat → List Char → List String
  | 0, _ => []
  | _, [] => []
  | Nat.succ fuel, c :: cs =>
      if isWordChar c then
        ⟨(c :: cs).takeWhile isWordChar⟩ ::
          wordTokens fuel ((c :: cs).dropWhile isWordChar)
      else wordTokens fuel cs

/-- `common_medicines` (extract_medicines.py lines 17-22). -/
def common_medicines : List String :=
  ["aspirin", "ibuprofen", "acetaminophen", "paracetamol", "warfarin",
   "metformin", "insulin", "amoxicillin", "lisinopril", "atorvastatin",
   "amlodipine", "metoprolol", "omeprazole", "losartan", "furosemide",
   "prednisone", "tramadol", "gabapentin", "sertraline", "fluoxetine"]

/-- `stop_words` (extract_medicines.py lines 71-75). -/
def stop_words : List String :=
  ["take", "with", "food", "daily", "twice", "once", "three", "times",
   "tablet", "capsule", "pill", "dose", "after", "before", "morning",
   "evening", "night", "day", "week", "month", "per", "as", "needed"]

/-- A Python `set` built by successive `add`s, modelled as an
insertion-ordered duplicate-free list. -/
def dedupFirst (l : List String) : List String :=
  l.foldl (fun acc m => if m ∈ acc then acc else acc ++ [m]) []

/-- The rule-based regex path of `extract_medicines` (lines 59-76): run the
three patterns over the lowercased text, keep captures that are longer
than 2 characters and purely alphabetic, take the set union, then remove
stop words. -/
def ruleBasedExtract (text : String) : List String :=
  let tl := (pyLower text).data
  let raw := scanWordDoseUnit (tl.length + 1) false tl
          ++ scanTakeWord (tl.length + 1) tl
          ++ (wordTokens (tl.length + 1) tl).filter (fun t => t ∈ common_medicines)
  let added := (raw.map pyStrip).filter
    (fun m => 2 < m.length && m.data.all Char.isAlpha)
  (dedupFirst added).filter (fun m => m ∉ stop_words)

/-- Outcome of the `query_granite` enrichment call plus the JSON handling
of its response, as distinguished by the control flow of
`extract_medicines` (lines 44-57): the call raises (network failure,
timeout, missing credentials, non-2xx status); the response is not valid
JSON (`json.JSONDecodeError`); the JSON is not a list; the JSON is a list
containing a non-string (`.lower()` then raises `AttributeError`); or the
JSON is a list of strings. -/
inductive GraniteOutcome
  | exn
  | badJson
  | nonList
  | listWithNonStr
  | strList (xs : List String)

/-- `extract_medicines` (lines 30-83).  In api mode the granite branch runs
first; only `json.JSONDecodeError` is caught locally (falling through to
the regex path via the empty set), while an exception from the call
itself or from `.lower()` on a non-string propagates to the outer
`except`, which returns the empty list — skipping the regex path. -/
def extract_medicines (apiMode : Bool) (granite : GraniteOutcome) (text : String) :
    List String :=
  if apiMode then
    match granite with
    | .exn => []
    | .listWithNonStr => []
    | .badJson => ruleBasedExtract text
    | .nonList => ruleBasedExtract text
    | .strList xs =>
        let meds := dedupFirst
          ((xs.filter (fun m => ¬ (pyStrip m).isEmpty)).map
            (fun m => pyStrip (pyLower m)))
        if meds.isEmpty then ruleBasedExtract text else meds
  else ruleBasedExtract text

/-- C6 counterexample: on a raising enrichment failure (network
failure/timeout), `extract_medicines` does NOT fall back to the rule-based
regex extraction — it returns the empty list, although the regex path
extracts "aspirin" from the same text. -/
theorem extract_medicines_exn_counterexample :
    extract_medicines true .exn "Take aspirin 325mg twice daily" = [] ∧
    ruleBasedExtract "Take aspirin 325mg twice daily" = ["aspirin"] ∧
    ([] : List String) ≠ ["aspirin"] :=
  ⟨rfl, by decide, by decide⟩

/-- C6 amended: enrichment failures that leave the response unusable
without raising (invalid JSON, non-list JSON, an empty list) silently fall
back to the rule-based regex extraction, while failures that raise inside
the granite call or while normalising its payload (network failure,
timeout, missing credentials, a list containing non-strings) are caught by
the outer handler and yield the empty list without running the regex path;
in no case does an error surface to the caller. -/
theorem extract_medicines_fallback_amended :
    (∀ t, extract_medicines true .badJson t = ruleBasedExtract t) ∧
    (∀ t, extract_medicines true .nonList t = ruleBasedExtract t) ∧
    (∀ t, extract_medicines true (.strList []) t = ruleBasedExtract t) ∧
    (∀ t, extract_medicines true .exn t = []) ∧
    (∀ t, extract_medicines true .listWithNonStr t = []) :=
  ⟨fun _ => rfl, fun _ => rfl, fun _ => rfl, fun _ => rfl, fun _ => rfl⟩

/-! ## Frequency extraction (`extract_medicines.py`, `extract_frequency`)

The six regex patterns are kept as their source strings; the regex engine
itself is abstracted as a parameter `search pat text` modelling
`re.search(pat, text)` and returning the first captured group on a match
(`some g`; patterns without a relevant group ignore the value).  Every
theorem below is quantified over all engine behaviours, so nothing
depends on this abstraction. -/

/-- `frequency_patterns` (extract_medicines.py lines 171-178). -/
def frequency_patterns : List (String × String) :=
  [("once_daily", "\\b(?:once|one time)\\s*(?:daily|per day|a day)\\b"),
   ("twice_daily", "\\b(?:twice|two times)\\s*(?:daily|per day|a day)\\b"),
   ("three_times_daily", "\\b(?:three times|thrice)\\s*(?:daily|per day|a day)\\b"),
   ("four_times_daily", "\\b(?:four times)\\s*(?:daily|per day|a day)\\b"),
   ("as_needed", "\\b(?:as needed|prn|when needed)\\b"),
   ("every_x_hours", "\\bevery\\s*(\\d+)\\s*hours?\\b")]

/-- Python `freq_type.replace('_', ' ')`. -/
def underscoresToSpaces (s : String) : String :=
  ⟨s.data.map (fun c => if c = '_' then ' ' else c)⟩

/-- The dict-building loop of `extract_frequency` over an arbitrary
pattern table. -/
def extractFreqAux (search : String → String → Option String) (text : String) :
    List (String × String) → List (String × String)
  | [] => []
  | p :: ps =>
      match search p.2 (pyLower text) with
      | some g =>
          (p.1, if p.1 = "every_x_hours" then "every " ++ g ++ " hours"
                else underscoresToSpaces p.1) :: extractFreqAux search text ps
      | none => extractFreqAux search text ps

/-- `extract_frequency` (extract_medicines.py lines 161-191): the result
dict keyed by matched frequency categories, in table order. -/
def extract_frequency (search : String → String → Option String) (text : String) :
    List (String × String) :=
  extractFreqAux search text frequency_patterns

/-- The frequency value the `check_dosage` endpoint passes to
`verify_dosage` (main.py line 370):
`frequencies.get('detected_frequency', 'Not specified')`. -/
def check_dosage_frequency_arg (search : String → String → Option String)
    (text : String) : String :=
  pyDictGet (extract_frequency search text) "detected_frequency" "Not specified"

/-- A key outside a pattern table is never a key of the built dict. -/
theorem extractFreqAux_get_default (search : String → String → Option String)
    (text : String) (key dflt : String) :
    ∀ ps : List (String × String), key ∉ ps.map Prod.fst →
      pyDictGet (extractFreqAux search text ps) key dflt = dflt := by
  intro ps
  induction ps with
  | nil => intro _; rfl
  | cons p ps ih =>
    intro h
    have hk : ¬ p.1 = key := by
      intro he
      exact h (by simp [he])
    have hps : key ∉ ps.map Prod.fst := by
      intro hm
      exact h (List.mem_cons_of_mem _ hm)
    unfold extractFreqAux
    cases search p.2 (pyLower text) with
    | none => exact ih hps
    | some g =>
        unfold pyDictGet at *
        simp only [List.find?_cons, hk, decide_eq_true_eq, if_false]
        simpa using ih hps

/-! ## Interaction evaluation (`main.py`, `check_interactions`, lines 122-331)

The endpoint is embedded as a function of the extracted medicine list
(the output of `extract_medicines`), the patient age and weight, and the
(schema-validated) granite enrichment list that the api-mode branch
appends when more than one medicine was extracted. -/

structure Interaction where
  severity : String
  description : String
  recommendations : List String
deriving DecidableEq

structure CombinationRule where
  drugA : String
  drugB : String
  severity : String
  description : String
  recommendations : List String
deriving DecidableEq

/-- The interaction entry appended for a matching rule (main.py 263-267). -/
def CombinationRule.toInteraction (c : CombinationRule) : Interaction :=
  ⟨c.severity, c.description, c.recommendations⟩

/-- `dangerous_combinations` (main.py lines 145-206). -/
def dangerous_combinations : List CombinationRule :=
  [⟨"aspirin", "warfarin", "major",
    "Increased bleeding risk due to combined anticoagulant effects",
    ["Monitor INR closely", "Consider alternative analgesic", "Consult hematologist"]⟩,
   ⟨"aspirin", "ibuprofen", "moderate",
    "Increased bleeding risk and potential for GI irritation",
    ["Space doses by at least 2 hours", "Consider PPI for GI protection"]⟩,
   ⟨"ibuprofen", "warfarin", "major",
    "Significantly increased bleeding risk",
    ["Monitor INR frequently", "Consider acetaminophen as alternative"]⟩,
   ⟨"metformin", "insulin", "moderate",
    "Risk of hypoglycemia with combined glucose-lowering effects",
    ["Monitor blood glucose levels", "Adjust doses under medical supervision"]⟩,
   ⟨"lisinopril", "potassium", "moderate",
    "Risk of hyperkalemia due to potassium retention",
    ["Monitor potassium levels", "Limit potassium-rich foods"]⟩,
   ⟨"digoxin", "furosemide", "moderate",
    "Furosemide may increase digoxin toxicity via electrolyte imbalances",
    ["Monitor electrolytes", "Check digoxin levels regularly"]⟩,
   ⟨"prednisone", "warfarin", "moderate",
    "Prednisone may enhance warfarin’s anticoagulant effect",
    ["Monitor INR closely", "Adjust warfarin dose as needed"]⟩,
   ⟨"amoxicillin", "warfarin", "moderate",
    "Amoxicillin may enhance warfarin’s anticoagulant effect",
    ["Monitor INR during antibiotic course", "Consult prescriber"]⟩,
   ⟨"fluoxetine", "warfarin", "moderate",
    "Fluoxetine may increase warfarin levels via CYP2C9 inhibition",
    ["Monitor INR frequently", "Consider dose adjustment"]⟩,
   ⟨"atorvastatin", "clarithromycin", "major",
    "Clarithromycin inhibits atorvastatin metabolism, increasing myopathy risk",
    ["Consider alternative antibiotic", "Monitor for muscle pain"]⟩]

/-- The fourth rule of the table (used by the C2 counterexample). -/
def metformin_insulin_rule : CombinationRule :=
  ⟨"metformin", "insulin", "moderate",
   "Risk of hypoglycemia with combined glucose-lowering effects",
   ["Monitor blood glucose levels", "Adjust doses under medical supervision"]⟩

/-- The pair test of main.py lines 261-262:
`(med1.lower() in drug1 and med2.lower() in drug2) or
 (med1.lower() in drug2 and med2.lower() in drug1)` — note the Python
`in` makes the MENTION a substring of the rule's drug name. -/
def comboMatch (med1 med2 : String) (c : CombinationRule) : Bool :=
  (pyIn (pyLower med1) c.drugA && pyIn (pyLower med2) c.drugB) ||
  (pyIn (pyLower med1) c.drugB && pyIn (pyLower med2) c.drugA)

/-- The matching relation exactly as C2's sentence words it: the rule's
drugA is a substring of one mention and drugB a substring of the other,
or the reverse pairing. -/
def comboMatchClaim (med1 med2 : String) (c : CombinationRule) : Bool :=
  (pyIn c.drugA med1 && pyIn c.drugB med2) ||
  (pyIn c.drugA med2 && pyIn c.drugB med1)

/-- Association-list lookup returning the stored message. -/
def lookupStr (l : List (String × String)) (k : String) : Option String :=
  match l.find? (fun p => p.1 = k) with
  | some p => some p.2
  | none => none

/-- `pediatric_contraindications` (ibm_alerts.py lines 130-134). -/
def pediatric_contraindications : List (String × String) :=
  [("aspirin", "Aspirin contraindicated in children under 12 due to Reye\x27s syndrome risk"),
   ("ibuprofen", "Use caution with ibuprofen in children - weight-based dosing required"),
   ("codeine", "Codeine contraindicated in children under 12")]

/-- `geriatric_considerations` (ibm_alerts.py lines 139-143). -/
def geriatric_considerations : List (String × String) :=
  [("ibuprofen", "Reduce dose in elderly - increased risk of kidney and GI complications"),
   ("aspirin", "Monitor for bleeding risk - elderly more susceptible"),
   ("prednisone", "Increased risk of osteoporosis and diabetes in elderly")]

/-- `generate_age_based_alert` (ibm_alerts.py lines 102-150), rule-based
path, called without a dosage as `check_interactions` does (so the
high-dose check is skipped): at most one pediatric or geriatric alert
from the fixed tables. -/
def generate_age_based_alert (drug : String) (age : Int) : List String :=
  if age < 18 then
    match lookupStr pediatric_contraindications (pyLower drug) with
    | some msg => ["🚨 PEDIATRIC ALERT: " ++ msg]
    | none => []
  else if 65 ≤ age then
    match lookupStr geriatric_considerations (pyLower drug) with
    | some msg => ["👴 GERIATRIC ALERT: " ++ msg]
    | none => []
  else []

/-- An age alert becomes an interaction (main.py 244-249 and 272-277):
moderate when the alert carries the pediatric marker, else minor. -/
def alertInteraction (alert : String) : Interaction :=
  ⟨if pyIn "🚨" alert then "moderate" else "minor", alert,
   ["Consult prescriber for age-appropriate guidance"]⟩

def ageAlertInteractions (drug : String) (age : Int) : List Interaction :=
  (generate_age_based_alert drug age).map alertInteraction

/-- The multi-medicine double loop (main.py lines 257-277): for each
mention, the rule matches with every later mention (inner loops over
`medicines[i+1:]` and the rule table, in order), followed by that
mention's age-based alerts. -/
def pairSection (age : Int) : List String → List Interaction
  | [] => []
  | med1 :: rest =>
      rest.flatMap (fun med2 =>
        dangerous_combinations.filterMap (fun c =>
          if comboMatch med1 med2 c then some c.toInteraction else none))
      ++ ageAlertInteractions med1 age
      ++ pairSection age rest

/-- The `interaction_found` flag of the double loop. -/
def anyComboFound : List String → Bool
  | [] => false
  | med1 :: rest =>
      rest.any (fun med2 =>
        dangerous_combinations.any (fun c => comboMatch med1 med2 c))
      || anyComboFound rest

/-- Python `str.title()` (ASCII). -/
def pyTitle (s : String) : String :=
  ⟨(s.data.foldl (fun (acc : List Char × Bool) c =>
      if c.isAlpha then
        (acc.1 ++ [if acc.2 then c.toLower else c.toUpper], true)
      else (acc.1 ++ [c], false)) ([], false)).1⟩

/-- The weight/age numbers are rendered into f-strings by Python; the
rendering itself is abstracted as `toString` of the rational/integer
(no claim depends on the rendered digits). -/
def formatQ (w : ℚ) : String := toString w

/-- The pediatric context interaction (main.py lines 287-296). -/
def pediatricContextInteraction (weight : ℚ) : Interaction :=
  ⟨"moderate",
   "Pediatric patient: Weight-based dosing and interaction risks require careful monitoring.",
   ["Verify dosing for " ++ formatQ weight ++ "kg child",
    "Consult pediatric specialist",
    "Use pediatric formulations if available"]⟩

/-- The geriatric context interaction (main.py lines 297-306). -/
def geriatricContextInteraction : Interaction :=
  ⟨"moderate",
   "Geriatric patient: Increased risk of adverse effects due to age-related changes.",
   ["Consider 25-50% dose reduction",
    "Monitor renal and hepatic function",
    "Review polypharmacy risks"]⟩

/-- The low-weight context interaction (main.py lines 309-317). -/
def lowWeightContextInteraction (weight : ℚ) : Interaction :=
  ⟨"moderate",
   "Low weight (" ++ formatQ weight ++ "kg) may require adjusted dosing for NSAIDs or acetaminophen.",
   ["Use weight-based dosing (e.g., 10mg/kg for ibuprofen, 15mg/kg for acetaminophen)",
    "Consult prescriber"]⟩

/-- The interaction list `check_interactions` builds before the
deduplication pass (main.py lines 208-317), for a non-empty medicine
list: granite enrichment results first (appended only in api mode with
more than one medicine), then the rule-based single/multi branch, then
the unconditional patient-context entries. -/
def buildInteractions (apiMode : Bool) (graniteExt : List Interaction)
    (medicines : List String) (age : Int) (weight : ℚ) : List Interaction :=
  (if apiMode && decide (1 < medicines.length) then graniteExt else [])
  ++ (match medicines with
      | [] => []
      | [med] =>
          let alerts := ageAlertInteractions med age
          if alerts.isEmpty then
            [⟨"info",
              pyTitle med ++ " appears safe for a " ++ toString age ++ "-year-old patient.",
              ["Monitor for adverse effects"]⟩]
          else alerts
      | _ =>
          pairSection age medicines
          ++ (if anyComboFound medicines then []
              else
                [⟨"info",
                  "No major interactions found between " ++
                    String.intercalate ", " medicines ++ ".",
                  ["Continue monitoring for new symptoms"]⟩]))
  ++ (if age < 18 then [pediatricContextInteraction weight]
      else if 65 ≤ age then [geriatricContextInteraction] else [])
  ++ (if weight < 40 &&
        medicines.any (fun m => pyLower m = "ibuprofen" || pyLower m = "acetaminophen")
      then [lowWeightContextInteraction weight] else [])

/-- The deduplication loop with its `seen_descriptions` set
(main.py lines 319-325). -/
def dedupAux : List Interaction → List String → List Interaction
  | [], _ => []
  | x :: xs, seen =>
      if x.description ∈ seen then dedupAux xs seen
      else x :: dedupAux xs (x.description :: seen)

/-- Deduplication by exact description text, keeping first occurrences. -/
def dedupByDescription (l : List Interaction) : List Interaction :=
  dedupAux l []

/-- `check_interactions` as a function of the extracted medicines: an
empty extraction returns the single warning immediately (main.py lines
136-142, before the dedup pass); otherwise the built list is
deduplicated by description and returned. -/
def check_interactions (apiMode : Bool) (graniteExt : List Interaction)
    (medicines : List String) (age : Int) (weight : ℚ) : List Interaction :=
  if medicines.isEmpty then
    [⟨"warning",
      "No medicines detected in the prescription text. Please check the input.",
      ["Verify prescription text for accuracy"]⟩]
  else dedupByDescription (buildInteractions apiMode graniteExt medicines age weight)

/-- The dedup loop output is a sublist of its input (first-seen order is
preserved). -/
theorem dedupAux_sublist (l : List Interaction) :
    ∀ seen : List String, List.Sublist (dedupAux l seen) l := by
  induction l with
  | nil => intro seen; simp [dedupAux]
  | cons x xs ih =>
    intro seen
    simp only [dedupAux]
    by_cases h : x.description ∈ seen
    · rw [if_pos h]
      exact (ih seen).cons x
    · rw [if_neg h]
      exact (ih (x.description :: seen)).cons₂ x

/-- The dedup loop output has pairwise-distinct descriptions, none of
which was already seen. -/
theorem dedupAux_nodup (l : List Interaction) :
    ∀ seen : List String,
      ((dedupAux l seen).map Interaction.description).Nodup ∧
      ∀ d ∈ (dedupAux l seen).map Interaction.description, d ∉ seen := by
  induction l with
  | nil => intro seen; simp [dedupAux]
  | cons x xs ih =>
    intro seen
    simp only [dedupAux]
    by_cases h : x.description ∈ seen
    · rw [if_pos h]
      exact ih seen
    · rw [if_neg h]
      obtain ⟨hn, hf⟩ := ih (x.description :: seen)
      simp only [List.map_cons, List.nodup_cons]
      refine ⟨⟨fun hx => (hf _ hx) (List.mem_cons_self _ _), hn⟩, ?_⟩
      intro d hd
      rcases List.mem_cons.mp hd with h1 | h2
      · rw [h1]; exact h
      · intro hds
        exact hf d h2 (List.mem_cons_of_mem _ hds)

/-- Every input description survives the dedup loop (or was seen). -/
theorem dedupAux_complete (l : List Interaction) :
    ∀ seen : List String, ∀ x ∈ l,
      x.description ∈ seen ∨
      x.description ∈ (dedupAux l seen).map Interaction.description := by
  induction l with
  | nil => intro seen x hx; cases hx
  | cons y ys ih =>
    intro seen x hx
    simp only [dedupAux]
    by_cases h : y.description ∈ seen
    · rw [if_pos h]
      rcases List.mem_cons.mp hx with heq | hxs
      · left; rw [heq]; exact h
      · exact ih seen x hxs
    · rw [if_neg h]
      simp only [List.map_cons]
      rcases List.mem_cons.mp hx with heq | hxs
      · right; rw [heq]; exact List.mem_cons_self _ _
      · rcases ih (y.description :: seen) x hxs with hin | hout
        · rcases List.mem_cons.mp hin with heq | hseen
          · right; rw [heq]; exact List.mem_cons_self _ _
          · left; exact hseen
        · right; exact List.mem_cons_of_mem _ hout

/-- C7: for every medicine list, age, weight (and granite extension), the
interaction list returned by check_interactions contains no two entries
with identical description, and the deduplication keeps a subsequence of
the built list (first-seen order preserved) covering every built
description. -/
theorem check_interactions_dedup (apiMode : Bool) (graniteExt : List Interaction)
    (medicines : List String) (age : Int) (weight : ℚ) :
    ((check_interactions apiMode graniteExt medicines age weight).map
        Interaction.description).Nodup ∧
    (¬ medicines.isEmpty = true →
      List.Sublist (check_interactions apiMode graniteExt medicines age weight)
        (buildInteractions apiMode graniteExt medicines age weight) ∧
      ∀ x ∈ buildInteractions apiMode graniteExt medicines age weight,
        x.description ∈
          (check_interactions apiMode graniteExt medicines age weight).map
            Interaction.description) := by
  refine ⟨?_, fun hne => ⟨?_, ?_⟩⟩
  · unfold check_interactions
    by_cases h : medicines.isEmpty = true
    · rw [if_pos h]; simp
    · rw [if_neg h]
      exact (dedupAux_nodup _ []).1
  · unfold check_interactions
    rw [if_neg hne]
    exact dedupAux_sublist _ []
  · unfold check_interactions
    rw [if_neg hne]
    intro x hx
    rcases dedupAux_complete _ [] x hx with h | h
    · cases h
    · exact h

/-- C7 witness: the theorem applied at a concrete two-medicine request. -/
theorem check_interactions_dedup_witness :
    ((check_interactions false [] ["aspirin", "warfarin"] 70 65).map
        Interaction.description).Nodup ∧
    (List.Sublist (check_interactions false [] ["aspirin", "warfarin"] 70 65)
        (buildInteractions false [] ["aspirin", "warfarin"] 70 65) ∧
     ∀ x ∈ buildInteractions false [] ["aspirin", "warfarin"] 70 65,
       x.description ∈
         (check_interactions false [] ["aspirin", "warfarin"] 70 65).map
           Interaction.description) :=
  ⟨(check_interactions_dedup false [] ["aspirin", "warfarin"] 70 65).1,
   (check_interactions_dedup false [] ["aspirin", "warfarin"] 70 65).2 (by decide)⟩

/-- A two-element sublist of a cons: either the head is the first element
and the second occurs in the tail, or both occur in the tail. -/
theorem pair_sublist_cons (m1 m2 x : String) (xs : List String) :
    List.Sublist [m1, m2] (x :: xs) ↔
    (m1 = x ∧ m2 ∈ xs) ∨ List.Sublist [m1, m2] xs := by
  constructor
  · intro h
    cases h with
    | cons _ h1 => exact Or.inr h1
    | cons₂ _ h1 => exact Or.inl ⟨rfl, List.singleton_sublist.mp h1⟩
  · rintro (⟨rfl, hm⟩ | h)
    · exact (List.singleton_sublist.mpr hm).cons₂ m1
    · exact h.cons x

/-- No two rules of the table build the same interaction entry. -/
theorem table_toInteraction_inj :
    ∀ c1 ∈ dangerous_combinations, ∀ c2 ∈ dangerous_combinations,
      c1.toInteraction = c2.toInteraction → c1 = c2 := by decide

/-- Age-based alert interactions always carry the fixed single
recommendation (main.py 248 and 276). -/
theorem ageAlert_recommendations (drug : String) (age : Int) :
    ∀ x ∈ ageAlertInteractions drug age,
      x.recommendations = ["Consult prescriber for age-appropriate guidance"] := by
  intro x hx
  rcases List.mem_map.mp hx with ⟨a, _, h⟩
  rw [← h]
  rfl

/-- A rule interaction is never an age-based alert interaction (their
recommendation lists differ). -/
theorem rule_interaction_not_age_alert (c : CombinationRule)
    (hc : c ∈ dangerous_combinations) (drug : String) (age : Int) :
    c.toInteraction ∉ ageAlertInteractions drug age := by
  intro hmem
  have h1 := ageAlert_recommendations drug age _ hmem
  have h2 : ∀ c2 ∈ dangerous_combinations,
      ¬ c2.recommendations = ["Consult prescriber for age-appropriate guidance"] := by
    decide
  exact h2 c hc h1

/-- The pair loop emits a rule's interaction exactly when some ordered
pair of mentions satisfies the source's containment test. -/
theorem pairSection_mem_iff (age : Int) (c : CombinationRule)
    (hc : c ∈ dangerous_combinations) :
    ∀ medicines : List String,
      (c.toInteraction ∈ pairSection age medicines ↔
       ∃ m1 m2, List.Sublist [m1, m2] medicines ∧ comboMatch m1 m2 c = true) := by
  intro medicines
  induction medicines with
  | nil =>
    simp only [pairSection, List.not_mem_nil, false_iff]
    rintro ⟨m1, m2, hsub, -⟩
    have := List.sublist_nil.mp hsub
    simp at this
  | cons med1 rest ih =>
    simp only [pairSection, List.mem_append]
    constructor
    · rintro ((h1 | h2) | h3)
      · rcases List.mem_flatMap.mp h1 with ⟨med2, hmed2, hfm⟩
        rcases List.mem_filterMap.mp hfm with ⟨c2, hc2, heq⟩
        by_cases hm : comboMatch med1 med2 c2 = true
        · rw [if_pos hm] at heq
          injection heq with heq2
          have hcc : c2 = c := table_toInteraction_inj c2 hc2 c hc heq2
          refine ⟨med1, med2, ?_, by rw [← hcc]; exact hm⟩
          exact (pair_sublist_cons med1 med2 med1 rest).mpr (Or.inl ⟨rfl, hmed2⟩)
        · rw [if_neg hm] at heq
          cases heq
      · exact absurd h2 (rule_interaction_not_age_alert c hc med1 age)
      · rcases ih.mp h3 with ⟨m1, m2, hs, hm⟩
        exact ⟨m1, m2, hs.cons med1, hm⟩
    · rintro ⟨m1, m2, hsub, hm⟩
      rcases (pair_sublist_cons m1 m2 med1 rest).mp hsub with ⟨rfl, hm2⟩ | hs
      · refine Or.inl (Or.inl (List.mem_flatMap.mpr ⟨m2, hm2, ?_⟩))
        exact List.mem_filterMap.mpr ⟨c, hc, by rw [if_pos hm]⟩
      · exact Or.inr (ih.mpr ⟨m1, m2, hs, hm⟩)

/-- C2 counterexample: for the extracted mentions "insulinoma" and
"metformin" and the metformin-insulin rule, the claim's
drug-in-mention containment holds, yet the source test (mention-in-drug)
does not match and check_interactions emits no such interaction. -/
theorem substring_direction_counterexample :
    metformin_insulin_rule ∈ dangerous_combinations ∧
    comboMatchClaim "insulinoma" "metformin" metformin_insulin_rule = true ∧
    comboMatch "insulinoma" "metformin" metformin_insulin_rule = false ∧
    metformin_insulin_rule.toInteraction ∉
      pairSection 30 ["insulinoma", "metformin"] ∧
    metformin_insulin_rule.toInteraction ∉
      check_interactions false [] ["insulinoma", "metformin"] 30 70 := by
  decide

/-- C2 amended: in check_interactions, a rule matches a pair of extracted
mentions if and only if (the lowercased first mention is a substring of
the rule's drugA and the lowercased second mention a substring of drugB)
or the reverse pairing holds — i.e. substring containment with the
MENTION contained in the rule's drug name, the opposite direction from
the original claim. -/
theorem check_interactions_rule_matching_amended (age : Int)
    (medicines : List String) (c : CombinationRule)
    (hc : c ∈ dangerous_combinations) :
    c.toInteraction ∈ pairSection age medicines ↔
    ∃ m1 m2, List.Sublist [m1, m2] medicines ∧
      ((pyIn (pyLower m1) c.drugA = true ∧ pyIn (pyLower m2) c.drugB = true) ∨
       (pyIn (pyLower m1) c.drugB = true ∧ pyIn (pyLower m2) c.drugA = true)) := by
  rw [pairSection_mem_iff age c hc medicines]
  constructor <;> rintro ⟨m1, m2, hs, hm⟩ <;> refine ⟨m1, m2, hs, ?_⟩
  · simpa only [comboMatch, Bool.or_eq_true, Bool.and_eq_true] using hm
  · simpa only [comboMatch, Bool.or_eq_true, Bool.and_eq_true] using hm

/-- C2 witness: the amended characterisation applied at the
metformin-insulin rule and mentions that DO satisfy the reversed
containment ("insu" is a substring of "insulin"). -/
theorem check_interactions_rule_matching_amended_witness :
    metformin_insulin_rule.toInteraction ∈ pairSection 30 ["insu", "metformin"] ↔
    ∃ m1 m2, List.Sublist [m1, m2] ["insu", "metformin"] ∧
      ((pyIn (pyLower m1) metformin_insulin_rule.drugA = true ∧
        pyIn (pyLower m2) metformin_insulin_rule.drugB = true) ∨
       (pyIn (pyLower m1) metformin_insulin_rule.drugB = true ∧
        pyIn (pyLower m2) metformin_insulin_rule.drugA = true)) :=
  check_interactions_rule_matching_amended 30 ["insu", "metformin"]
    metformin_insulin_rule (by decide)

/-! ## Dosage verification (`dosage_checker.py`, class `DosageChecker`)

Amounts and weights are rationals (Python floats; every arithmetic step
in these code paths — products with 0.5/0.75/1.0, weight scaling,
24/N — is exact here).  Issue texts and recommended-dosage texts are
kept structural: each constructor corresponds to one f-string of the
source and carries its numeric payload, so no float rendering has to be
reproduced. -/

inductive Severity
  | low
  | medium
  | high
deriving DecidableEq

/-- `['low', 'medium', 'high'].index(x)`. -/
def sevIndex : Severity → Nat
  | .low => 0
  | .medium => 1
  | .high => 2

/-- Python `max(a, b, key=lambda x: ['low','medium','high'].index(x))`:
returns the second argument only when its key is strictly larger. -/
def pyMaxSev (a b : Severity) : Severity :=
  if sevIndex a < sevIndex b then b else a

inductive AgeGroup
  | pediatric
  | adult
  | geriatric
deriving DecidableEq

/-- Modelled from the spec: `self._get_age_group(age)` is called at
dosage_checker.py lines 122 and 187, but no `_get_age_group` method is
defined in the class or anywhere else in the repository.  The spec
(§3 PatientContext, §4.2 step 1, §8) fixes the derivation as the closed
integer bands pediatric 0-17, adult 18-64, geriatric 65-120, matching
the `age_groups` table the source itself defines at lines 28-32. -/
def get_age_group (age : Int) : AgeGroup :=
  if age ≤ 17 then .pediatric else if age ≤ 64 then .adult else .geriatric

structure AdjustmentInfo where
  factor : ℚ
  special_considerations : List String
deriving DecidableEq

/-- `dosage_adjustments` (lines 34-58). -/
def dosage_adjustments : AgeGroup → AdjustmentInfo
  | .pediatric =>
      ⟨mkRat 1 2, ["Use weight-based dosing where applicable",
             "Prefer pediatric formulations (e.g., suspensions)",
             "Monitor for developmental toxicities"]⟩
  | .geriatric =>
      ⟨mkRat 3 4, ["Adjust for reduced renal/hepatic function",
             "Monitor for drug accumulation",
             "Review polypharmacy interactions"]⟩
  | .adult =>
      ⟨1, ["Verify adherence to standard therapeutic ranges",
           "Monitor for patient-specific factors (e.g., renal function)"]⟩

structure GuidelineEntry where
  rmin : ℚ
  rmax : ℚ
  unit : String
  max_daily : ℚ
  frequency : String
deriving DecidableEq

structure MedGuidelines where
  adult : GuidelineEntry
  pediatric : GuidelineEntry
  geriatric : GuidelineEntry
  notes : List String
deriving DecidableEq

/-- `dosage_info.get(age_group, ...)`: every table entry carries all
three groups, so the lookup is total. -/
def MedGuidelines.forGroup (g : MedGuidelines) : AgeGroup → GuidelineEntry
  | .adult => g.adult
  | .pediatric => g.pediatric
  | .geriatric => g.geriatric

/-- `dosage_guidelines` (lines 61-98). -/
def dosage_guidelines : List (String × MedGuidelines) :=
  [("aspirin",
    ⟨⟨81, 325, "mg", 4000, "once or twice daily"⟩,
     ⟨10, 15, "mg/kg", 80, "every 4-6 hours"⟩,
     ⟨81, 162, "mg", 2000, "once daily"⟩,
     ["Low-dose for cardioprotection", "Higher doses for analgesia"]⟩),
   ("ibuprofen",
    ⟨⟨200, 800, "mg", 3200, "every 6-8 hours"⟩,
     ⟨5, 10, "mg/kg", 40, "every 6-8 hours"⟩,
     ⟨200, 400, "mg", 2400, "every 8 hours"⟩,
     ["Take with food to reduce GI irritation", "Monitor renal function"]⟩),
   ("acetaminophen",
    ⟨⟨500, 1000, "mg", 4000, "every 4-6 hours"⟩,
     ⟨10, 15, "mg/kg", 75, "every 4-6 hours"⟩,
     ⟨500, 650, "mg", 3000, "every 6 hours"⟩,
     ["Monitor for hepatotoxicity", "Avoid alcohol"]⟩),
   ("metformin",
    ⟨⟨500, 1000, "mg", 2550, "twice daily"⟩,
     ⟨500, 1000, "mg", 2000, "twice daily"⟩,
     ⟨500, 850, "mg", 1500, "once or twice daily"⟩,
     ["Monitor renal function", "Risk of lactic acidosis"]⟩),
   ("lisinopril",
    ⟨⟨10, 40, "mg", 80, "once daily"⟩,
     ⟨mkRat 7 100, mkRat 3 10, "mg/kg", 40, "once daily"⟩,
     ⟨mkRat 5 2, 20, "mg", 40, "once daily"⟩,
     ["Monitor blood pressure and potassium", "Risk of angioedema"]⟩),
   ("warfarin",
    ⟨⟨2, 10, "mg", 15, "once daily"⟩,
     ⟨mkRat 1 10, mkRat 1 5, "mg/kg", 10, "once daily"⟩,
     ⟨1, 5, "mg", 10, "once daily"⟩,
     ["Monitor INR regularly", "Avoid with certain foods/drugs"]⟩)]

def lookupGuidelines (k : String) : Option MedGuidelines :=
  match dosage_guidelines.find? (fun p => p.1 = k) with
  | some p => some p.2
  | none => none

/-- `_get_mock_dosage_guidelines` (lines 628-643), used for medicines
outside the table. -/
def mock_dosage_guidelines : MedGuidelines :=
  ⟨⟨500, 1000, "mg", 2000, "twice daily"⟩,
   ⟨10, 20, "mg/kg", 40, "every 6 hours"⟩,
   ⟨250, 750, "mg", 1500, "twice daily"⟩,
   ["Monitor for adverse effects", "Consult prescribing information"]⟩

/-- Rational multiplication, spelled through `Rat.divInt` so that the
kernel can evaluate it (Batteries marks `Rat.mul` irreducible, which
blocks `decide`); `qMul_eq_mul` shows it is ordinary multiplication. -/
def qMul (a b : ℚ) : ℚ := Rat.divInt (a.num * b.num) ((a.den : Int) * (b.den : Int))

/-- Rational division through `Rat.divInt`; `qDiv_eq_div` shows it is
ordinary division (including the `x/0 = 0` convention). -/
def qDiv (a b : ℚ) : ℚ := Rat.divInt (a.num * (b.den : Int)) ((a.den : Int) * b.num)

theorem qMul_eq_mul (a b : ℚ) : qMul a b = a * b := by
  unfold qMul
  rw [Rat.divInt_eq_div]
  push_cast
  rw [← div_mul_div_comm, Rat.num_div_den, Rat.num_div_den]

theorem qDiv_eq_div (a b : ℚ) : qDiv a b = a / b := by
  unfold qDiv
  rw [Rat.divInt_eq_div]
  by_cases hb : b = 0
  · subst hb; simp
  · have hbn : (b.num : ℚ) ≠ 0 := by
      simpa using Rat.num_ne_zero.mpr hb
    have hbd : ((b.den : ℚ)) ≠ 0 := Nat.cast_ne_zero.mpr b.den_nz
    have had : ((a.den : ℚ)) ≠ 0 := Nat.cast_ne_zero.mpr a.den_nz
    push_cast
    rw [show a / b = (a.num / a.den) / (b.num / b.den) by
      rw [Rat.num_div_den, Rat.num_div_den]]
    field_simp

/-- Decimal digits to a natural number. -/
def digitsToNat (ds : List Char) : Nat :=
  ds.foldl (fun n c => n * 10 + (c.toNat - 48)) 0

/-- The value of `intpart(.fracpart)?` as an exact rational:
`intpart + fracpart / 10^len`, built with `Rat.divInt` so the kernel can
evaluate it. -/
def decimalToRat (ip fp : List Char) : ℚ :=
  Rat.divInt
    ((digitsToNat ip * 10 ^ fp.length + digitsToNat fp : Nat) : Int)
    (((10 ^ fp.length : Nat) : Int))

/-- The unit alternation `(mg|g|ml|mcg)` of `_parse_dosage_amount`, in
source order (no trailing boundary in this pattern). -/
def doseUnitAlts : List (List Char) := [['m', 'g'], ['g'], ['m', 'l'], ['m', 'c', 'g']]

def matchDoseUnit : List (List Char) → List Char → Option (List Char)
  | [], _ => none
  | u :: us, rest => if u.isPrefixOf rest then some u else matchDoseUnit us rest

/-- One attempt of `(\d+(?:\.\d+)?)\s*(mg|g|ml|mcg)` at the head of
`cs`; returns the parsed amount and the unit matched. -/
def matchAmountUnit (cs : List Char) : Option (ℚ × List Char) :=
  let ip := cs.takeWhile Char.isDigit
  if ip.isEmpty then none else
  let r1 := cs.dropWhile Char.isDigit
  let fpr : List Char × List Char :=
    match r1 with
    | '.' :: rest =>
        if (rest.takeWhile Char.isDigit).isEmpty then ([], r1)
        else (rest.takeWhile Char.isDigit, rest.dropWhile Char.isDigit)
    | _ => ([], r1)
  match matchDoseUnit doseUnitAlts (fpr.2.dropWhile isSpaceChar) with
  | some u => some (decimalToRat ip fpr.1, u)
  | none => none

/-- `re.search` position scan for the dosage pattern: first match wins. -/
def scanAmountUnit : Nat → List Char → Option (ℚ × List Char)
  | 0, _ => none
  | _, [] => none
  | Nat.succ fuel, c :: cs =>
      match matchAmountUnit (c :: cs) with
      | some r => some r
      | none => scanAmountUnit fuel cs

/-- `_parse_dosage_amount` (lines 343-369): search case-insensitively
(via lowering), then g→×1000, mcg→÷1000, ml and mg unchanged. -/
def parse_dosage_amount (dosage : String) : Option ℚ :=
  match scanAmountUnit ((pyLower dosage).data.length + 1) (pyLower dosage).data with
  | some r =>
      if r.2 = ['g'] then some (qMul r.1 1000)
      else if r.2 = ['m', 'c', 'g'] then some (qDiv r.1 1000)
      else some r.1
  | none => none

/-- One attempt of `every (\d+) hours` at the head of `cs`. -/
def matchEveryHours (cs : List Char) : Option Nat :=
  if (['e', 'v', 'e', 'r', 'y', ' '] : List Char).isPrefixOf cs then
    let r := cs.drop 6
    let ds := r.takeWhile Char.isDigit
    if ds.isEmpty then none
    else if ([' ', 'h', 'o', 'u', 'r', 's'] : List Char).isPrefixOf
              (r.dropWhile Char.isDigit) then
      some (digitsToNat ds)
    else none
  else none

def scanEveryHours : Nat → List Char → Option Nat
  | 0, _ => none
  | _, [] => none
  | Nat.succ fuel, c :: cs =>
      match matchEveryHours (c :: cs) with
      | some n => some n
      | none => scanEveryHours fuel cs

/-- `freq_map` (lines 545-554 and 579-588; the two copies are identical). -/
def freq_map : List (String × Nat) :=
  [("once daily", 1), ("twice daily", 2), ("three times daily", 3),
   ("four times daily", 4), ("every 4-6 hours", 4), ("every 6-8 hours", 3),
   ("every 8 hours", 3), ("as needed", 1)]

/-- `freq_map.get(s, 1)`. -/
def freqMapGet (s : String) : Nat :=
  match freq_map.find? (fun p => p.1 = s) with
  | some p => p.2
  | none => 1

/-- `_estimate_daily_dose` (lines 567-600): an explicit `every N hours`
(case-insensitive) gives 24/N doses per day; `N = 0` raises
ZeroDivisionError, caught by the local handler into `None`; otherwise
the named-category table with conservative default 1. -/
def estimate_daily_dose (amt : ℚ) (frequency : String) : Option ℚ :=
  match scanEveryHours ((pyLower frequency).data.length + 1) (pyLower frequency).data with
  | some n => if n = 0 then none else some (qMul amt (qDiv 24 (n : ℚ)))
  | none => some (qMul amt (freqMapGet (pyLower frequency) : ℚ))

/-- The issue messages of the dosage checker, kept structural. -/
inductive Issue
  | belowRange (amount amin amax : ℚ) (unit : String)
  | aboveRange (amount amin amax : ℚ) (unit : String)
  | dailyExceeds (daily maxDaily : ℚ) (unit : String)
  | insufficientData (medicine : String)
  | unableToVerify (medicine : String)
  | weightBelowRange (mgPerKg rmin rmax : ℚ)
  | weightAboveRange (mgPerKg rmin rmax : ℚ)
  | frequencyNotSpecified
  | moreFrequentThanRecommended (prescribed standard : String)
deriving DecidableEq

/-- The `recommended_dosage` texts, kept structural: `Not available`,
`Consult clinical guidelines`, the adjusted range with standard
frequency, or the adjusted range with the daily maximum appended. -/
inductive RecDosage
  | notAvailable
  | consultGuidelines
  | range (amin amax : ℚ) (unit frequency : String)
  | rangeMax (amin amax : ℚ) (unit frequency : String) (maxDaily : ℚ)
deriving DecidableEq

/-- The `therapeutic_range` texts, kept structural. -/
inductive TherRange
  | notAvailable
  | range (rmin rmax maxDaily : ℚ) (unit : String)
deriving DecidableEq

structure WeightAnalysis where
  prescribed_mg_per_kg : Option ℚ
  recommended_mg_per_kg : Option (ℚ × ℚ)
  issues : List Issue
  severity : Severity
deriving DecidableEq

structure Analysis where
  has_issues : Bool
  severity : Severity
  issues : List Issue
  recommended_dosage : RecDosage
  therapeutic_range : TherRange
  clinical_notes : List String
deriving DecidableEq

structure DosageResult where
  has_issues : Bool
  severity : Severity
  issues : List Issue
  recommended_dosage : RecDosage
  therapeutic_range : TherRange
  clinical_notes : List String
  age_group : AgeGroup
  weight_based_analysis : WeightAnalysis
deriving DecidableEq

/-- `_analyze_dosage` (lines 371-469), entered with a truthy parsed
amount.  The mg/kg branch (lines 420-422) multiplies the parsed amount
by the weight while the adjusted bounds stay per-kg; the daily-dose
check (lines 450-462) then runs on the reassigned amount.  `max_daily`
is finite in every table entry, so the `!= inf` guard is always true. -/
def analyze_dosage (prescribed_amount : ℚ) (gi : GuidelineEntry)
    (adj : AdjustmentInfo) (weight : ℚ) (frequency : String) : Analysis :=
  let adjusted_min := qMul gi.rmin adj.factor
  let adjusted_max := qMul gi.rmax adj.factor
  let ther := TherRange.range gi.rmin gi.rmax gi.max_daily gi.unit
  let amt := if prescribed_amount ≠ 0 ∧ gi.unit = "mg/kg"
             then qMul prescribed_amount weight else prescribed_amount
  let a1 : Analysis :=
    if prescribed_amount ≠ 0 then
      if amt < adjusted_min then
        ⟨true, .medium, [.belowRange amt adjusted_min adjusted_max gi.unit],
         .range adjusted_min adjusted_max gi.unit gi.frequency, ther,
         adj.special_considerations⟩
      else if adjusted_max < amt then
        ⟨true, .high, [.aboveRange amt adjusted_min adjusted_max gi.unit],
         .range adjusted_min adjusted_max gi.unit gi.frequency, ther,
         adj.special_considerations⟩
      else
        ⟨false, .low, [], .range adjusted_min adjusted_max gi.unit gi.frequency,
         ther, adj.special_considerations⟩
    else ⟨false, .low, [], .notAvailable, ther, adj.special_considerations⟩
  if amt ≠ 0 then
    match estimate_daily_dose amt frequency with
    | some daily =>
        if daily ≠ 0 ∧ gi.max_daily < daily then
          { a1 with
            has_issues := true,
            severity := pyMaxSev a1.severity .high,
            issues := a1.issues ++ [.dailyExceeds daily gi.max_daily gi.unit],
            recommended_dosage :=
              .rangeMax adjusted_min adjusted_max gi.unit gi.frequency gi.max_daily }
        else a1
    | none => a1
  else a1

/-- `_analyze_weight_based_dosage` (lines 471-518): divides the ORIGINAL
parsed amount by the weight and compares against the RAW (unadjusted)
guideline range, only for mg/kg guidelines; otherwise the inert default. -/
def analyze_weight_based_dosage (prescribed_amount : Option ℚ) (weight : ℚ)
    (gi : GuidelineEntry) : WeightAnalysis :=
  match prescribed_amount with
  | none => ⟨none, none, [], .low⟩
  | some amt =>
      if weight = 0 ∨ amt = 0 ∨ ¬ gi.unit = "mg/kg" then ⟨none, none, [], .low⟩
      else if qDiv amt weight < gi.rmin then
        ⟨some (qDiv amt weight), some (gi.rmin, gi.rmax),
         [.weightBelowRange (qDiv amt weight) gi.rmin gi.rmax], .medium⟩
      else if gi.rmax < qDiv amt weight then
        ⟨some (qDiv amt weight), some (gi.rmin, gi.rmax),
         [.weightAboveRange (qDiv amt weight) gi.rmin gi.rmax], .high⟩
      else ⟨some (qDiv amt weight), some (gi.rmin, gi.rmax), [], .low⟩

/-- `_analyze_frequency` (lines 520-565): issues and severity of the
frequency check (the only fields the caller reads). -/
def analyze_frequency (frequency : String) (gi : GuidelineEntry) :
    List Issue × Severity :=
  if pyLower frequency = "not specified" ∨ gi.frequency = "not specified" then
    ([.frequencyNotSpecified], .medium)
  else if freqMapGet (pyLower gi.frequency) < freqMapGet (pyLower frequency) then
    ([.moreFrequentThanRecommended frequency gi.frequency], .medium)
  else ([], .low)

/-- `_get_general_age_recommendations` (lines 602-626). -/
def general_age_recommendations (medicine : String) (adj : AdjustmentInfo) :
    Analysis :=
  ⟨true, .medium, [.insufficientData medicine], .consultGuidelines,
   .notAvailable, adj.special_considerations⟩

/-- The result dict as initialised at lines 115-124, with the
spec-modelled age-group derivation filling `age_group`. -/
def base_result (age : Int) : DosageResult :=
  ⟨false, .low, [], .notAvailable, .notAvailable, [], get_age_group age,
   ⟨none, none, [], .low⟩⟩

/-- `medicine names with weight-based analysis` (line 209). -/
def weightMedicines : List String :=
  ["ibuprofen", "acetaminophen", "lisinopril", "warfarin"]

/-- Lines 185-206: parse the dosage, select the guideline (mock table
for unknown medicines), then `result.update(analysis)` — the range
analysis when a truthy amount was parsed (a parsed 0.0 is falsy in
Python and takes the general path, like an unparsable dosage), else the
general age recommendations. -/
def vd_stage1 (medicine dosage : String) (age : Int) (weight : ℚ)
    (frequency : String) : DosageResult :=
  let age_group := get_age_group age
  let adj := dosage_adjustments age_group
  let gi := ((lookupGuidelines (pyLower medicine)).getD
    mock_dosage_guidelines).forGroup age_group
  let analysis :=
    match parse_dosage_amount dosage with
    | some amt =>
        if amt ≠ 0 then analyze_dosage amt gi adj weight frequency
        else general_age_recommendations (pyLower medicine) adj
    | none => general_age_recommendations (pyLower medicine) adj
  { base_result age with
    has_issues := analysis.has_issues,
    severity := analysis.severity,
    issues := analysis.issues,
    recommended_dosage := analysis.recommended_dosage,
    therapeutic_range := analysis.therapeutic_range,
    clinical_notes := analysis.clinical_notes }

/-- The merge of a sub-analysis into the parent result (lines 218-220
and 230-232): `has_issues = True`, issues appended, severity maxed over
the ordinal. -/
def mergeIssues (r : DosageResult) (issues : List Issue) (sev : Severity) :
    DosageResult :=
  { r with
    has_issues := true,
    issues := r.issues ++ issues,
    severity := pyMaxSev r.severity sev }

/-- The weight-based sub-analysis `check_dosage` computes at lines
210-215 (guideline re-selected exactly as in stage 1). -/
def waOf (medicine dosage : String) (age : Int) (weight : ℚ) : WeightAnalysis :=
  analyze_weight_based_dosage (parse_dosage_amount dosage) weight
    (((lookupGuidelines (pyLower medicine)).getD
      mock_dosage_guidelines).forGroup (get_age_group age))

/-- Lines 208-220: the weight-based sub-analysis for the fixed medicine
subset, stored in the result and merged only when it produced issues. -/
def vd_stage2 (medicine dosage : String) (age : Int) (weight : ℚ)
    (frequency : String) : DosageResult :=
  if 0 < weight ∧ pyLower medicine ∈ weightMedicines then
    if ¬ (waOf medicine dosage age weight).issues.isEmpty then
      { mergeIssues (vd_stage1 medicine dosage age weight frequency)
          (waOf medicine dosage age weight).issues
          (waOf medicine dosage age weight).severity with
        weight_based_analysis := waOf medicine dosage age weight }
    else
      { vd_stage1 medicine dosage age weight frequency with
        weight_based_analysis := waOf medicine dosage age weight }
  else vd_stage1 medicine dosage age weight frequency

/-- The frequency sub-analysis of lines 224-228. -/
def faOf (medicine : String) (age : Int) (frequency : String) :
    List Issue × Severity :=
  analyze_frequency frequency
    (((lookupGuidelines (pyLower medicine)).getD
      mock_dosage_guidelines).forGroup (get_age_group age))

/-- Lines 222-232: the frequency sub-analysis, merged the same way, run
only when the frequency argument differs from the exact default string. -/
def vd_stage3 (medicine dosage : String) (age : Int) (weight : ℚ)
    (frequency : String) : DosageResult :=
  if frequency ≠ "Not specified" then
    if ¬ (faOf medicine age frequency).1.isEmpty then
      mergeIssues (vd_stage2 medicine dosage age weight frequency)
        (faOf medicine age frequency).1 (faOf medicine age frequency).2
    else vd_stage2 medicine dosage age weight frequency
  else vd_stage2 medicine dosage age weight frequency

/-- The rule-based body of `verify_dosage` (lines 185-238): range
analysis, weight-based merge, frequency merge, then clinical notes
appended for medicines present in the guideline table (lines 234-236). -/
def verify_dosage_rule (medicine dosage : String) (age : Int) (weight : ℚ)
    (frequency : String) : DosageResult :=
  let r := vd_stage3 medicine dosage age weight frequency
  match lookupGuidelines (pyLower medicine) with
  | some gl => { r with clinical_notes := r.clinical_notes ++ gl.notes }
  | none => r

inductive PyExn
  | attributeError
deriving DecidableEq

/-- The attribute lookup `self._get_age_group` performed while building
the result dict (line 122): the class defines no `_get_age_group`, and
no other module of the repository does either, so the lookup raises
`AttributeError`. -/
def getAgeGroupAttr : Except PyExn (Int → AgeGroup) := .error .attributeError

/-- `verify_dosage` (lines 100-245) at the Python exception level: the
result-dict initialisation (lines 115-124) runs BEFORE the `try` block
(line 126), so the `AttributeError` from the missing `_get_age_group`
propagates to the caller; the `except Exception` at line 240 (which
would convert failures into the medium-severity advisory issue) never
runs for it. -/
def verify_dosage_py (medicine dosage : String) (age : Int) (weight : ℚ)
    (frequency : String) : Except PyExn DosageResult :=
  match getAgeGroupAttr with
  | .error e => .error e
  | .ok _ => .ok (verify_dosage_rule medicine dosage age weight frequency)

/-- C1: contrary to the claimed never-raises contract, `verify_dosage`
raises AttributeError to its caller on EVERY input: `_get_age_group` is
undefined yet called while building the result dict, before the `try`
that contains the except-to-advisory conversion. -/
theorem verify_dosage_always_raises (medicine dosage : String) (age : Int)
    (weight : ℚ) (frequency : String) :
    verify_dosage_py medicine dosage age weight frequency
      = Except.error PyExn.attributeError := rfl


/-- The result's age_group field is populated at initialisation and
never touched by the analysis update (stage 1). -/
theorem vd_stage1_age_group (m d : String) (a : Int) (w : ℚ) (f : String) :
    (vd_stage1 m d a w f).age_group = get_age_group a := rfl

/-- The weight merge never touches age_group. -/
theorem vd_stage2_age_group (m d : String) (a : Int) (w : ℚ) (f : String) :
    (vd_stage2 m d a w f).age_group = get_age_group a := by
  unfold vd_stage2
  split
  · split
    · exact vd_stage1_age_group m d a w f
    · exact vd_stage1_age_group m d a w f
  · exact vd_stage1_age_group m d a w f

/-- The frequency merge never touches age_group. -/
theorem vd_stage3_age_group (m d : String) (a : Int) (w : ℚ) (f : String) :
    (vd_stage3 m d a w f).age_group = get_age_group a := by
  unfold vd_stage3
  split
  · split
    · exact vd_stage2_age_group m d a w f
    · exact vd_stage2_age_group m d a w f
  · exact vd_stage2_age_group m d a w f

/-- The clinical-notes step never touches age_group. -/
theorem verify_dosage_rule_age_group (m d : String) (a : Int) (w : ℚ) (f : String) :
    (verify_dosage_rule m d a w f).age_group = get_age_group a := by
  unfold verify_dosage_rule
  cases h : lookupGuidelines (pyLower m) with
  | some gl =>
      simp only [h]
      exact vd_stage3_age_group m d a w f
  | none =>
      simp only [h]
      exact vd_stage3_age_group m d a w f

/-- C3: the (spec-modelled) age-group derivation that verify_dosage uses
maps [0,17] to pediatric, [18,64] to adult, [65,120] to geriatric; over
[0,120] each age falls in exactly the stated band (contiguous,
non-overlapping, exhaustive); and the result's age_group is populated
with exactly this derivation on every input. -/
theorem age_group_bands (a : Int) :
    (0 ≤ a → a ≤ 17 → get_age_group a = .pediatric) ∧
    (18 ≤ a → a ≤ 64 → get_age_group a = .adult) ∧
    (65 ≤ a → a ≤ 120 → get_age_group a = .geriatric) ∧
    (0 ≤ a → a ≤ 120 →
      ((get_age_group a = .pediatric ↔ a ≤ 17) ∧
       (get_age_group a = .adult ↔ (18 ≤ a ∧ a ≤ 64)) ∧
       (get_age_group a = .geriatric ↔ 65 ≤ a))) ∧
    (∀ m d w f, (verify_dosage_rule m d a w f).age_group = get_age_group a) := by
  refine ⟨?_, ?_, ?_, ?_, fun m d w f => verify_dosage_rule_age_group m d a w f⟩
  · intro h1 h2
    unfold get_age_group
    rw [if_pos h2]
  · intro h1 h2
    unfold get_age_group
    rw [if_neg (by omega), if_pos h2]
  · intro h1 h2
    unfold get_age_group
    rw [if_neg (by omega), if_neg (by omega)]
  · intro h0 h120
    by_cases p : a ≤ 17
    · rw [show get_age_group a = .pediatric from by unfold get_age_group; rw [if_pos p]]
      exact ⟨by simp [p], by simp; omega, by simp; omega⟩
    · by_cases q : a ≤ 64
      · rw [show get_age_group a = .adult from by
          unfold get_age_group; rw [if_neg p, if_pos q]]
        exact ⟨by simp; omega, by simp; omega, by simp; omega⟩
      · rw [show get_age_group a = .geriatric from by
          unfold get_age_group; rw [if_neg p, if_neg q]]
        exact ⟨by simp; omega, by simp; omega, by simp; omega⟩

/-- C3 witness: the band theorem applied at ages 8, 40 and 70. -/
theorem age_group_bands_witness :
    get_age_group 8 = .pediatric ∧ get_age_group 40 = .adult ∧
    get_age_group 70 = .geriatric ∧
    (verify_dosage_rule "aspirin" "100mg" 70 65 "once daily").age_group
      = get_age_group 70 :=
  ⟨(age_group_bands 8).1 (by decide) (by decide),
   (age_group_bands 40).2.1 (by decide) (by decide),
   (age_group_bands 70).2.2.1 (by decide) (by decide),
   (age_group_bands 70).2.2.2.2 "aspirin" "100mg" 65 "once daily"⟩

/-- From the claim's words: the unit-consistent mg/kg range comparison —
the age-group adjustment factor applied to the per-kg guideline bounds,
and then BOTH sides scaled by the patient's weight (equivalently, the
per-kg amount against the adjusted per-kg bounds). -/
def unitConsistentMgKgInRange (amt weight rmin rmax factor : ℚ) : Prop :=
  rmin * factor * weight ≤ amt * weight ∧ amt * weight ≤ rmax * factor * weight

/-- C4: the mg/kg comparison in `_analyze_dosage` is NOT unit-consistent.
For verify_dosage("ibuprofen", "4mg", age=8, weight=10, "once daily")
(pediatric guideline 5-10 mg/kg, factor 0.5): the code multiplies the
parsed amount by the weight (4 → 40) but leaves the adjusted bounds in
per-kg units (2.5-5), so it reports severity high with an above-range
issue — while its own weight-based sub-analysis simultaneously reports
the same dose as BELOW range (0.4 mg/kg < 5 mg/kg) — although the
unit-consistent comparison the claim asserts (both sides in mg:
25 ≤ 40 ≤ 50) places the dose inside the adjusted range. -/
theorem mgkg_unit_inconsistency :
    (verify_dosage_rule "ibuprofen" "4mg" 8 10 "once daily").severity = .high ∧
    (verify_dosage_rule "ibuprofen" "4mg" 8 10 "once daily").has_issues = true ∧
    (verify_dosage_rule "ibuprofen" "4mg" 8 10 "once daily").issues
      = [.aboveRange 40 (mkRat 5 2) 5 "mg/kg", .weightBelowRange (mkRat 2 5) 5 10] ∧
    parse_dosage_amount "4mg" = some 4 ∧
    (((lookupGuidelines "ibuprofen").getD mock_dosage_guidelines).forGroup
        (get_age_group 8)).unit = "mg/kg" ∧
    (((lookupGuidelines "ibuprofen").getD mock_dosage_guidelines).forGroup
        (get_age_group 8)).rmin = 5 ∧
    (((lookupGuidelines "ibuprofen").getD mock_dosage_guidelines).forGroup
        (get_age_group 8)).rmax = 10 ∧
    (dosage_adjustments (get_age_group 8)).factor = mkRat 1 2 ∧
    unitConsistentMgKgInRange 4 10 5 10 ((dosage_adjustments (get_age_group 8)).factor) := by
  refine ⟨by decide, by decide, by decide, by decide, by decide, by decide,
    by decide, by decide, ?_⟩
  rw [show (dosage_adjustments (get_age_group 8)).factor = mkRat 1 2 from by decide,
    Rat.mkRat_eq_divInt, Rat.divInt_eq_div]
  unfold unitConsistentMgKgInRange
  norm_num

/-- C5 counterexample: for verify_dosage("unknownium", "100mg", age=40,
weight=70, "once daily") the result does have issues with severity
medium, but recommended_dosage is NOT the generic placeholder text
"Consult clinical guidelines". -/
theorem unknown_medicine_counterexample :
    (verify_dosage_rule "unknownium" "100mg" 40 70 "once daily").has_issues = true ∧
    (verify_dosage_rule "unknownium" "100mg" 40 70 "once daily").severity = .medium ∧
    ¬ (verify_dosage_rule "unknownium" "100mg" 40 70 "once daily").recommended_dosage
        = RecDosage.consultGuidelines := by
  decide

/-- C5 amended: the unknown-medicine lookup is indeed not an error — it
selects the mock placeholder guideline — but since "100mg" parses and
that guideline supplies an adult range of 500-1000 mg, the call takes
the range-comparison path: has_issues=true and severity medium come from
a below-therapeutic-range issue and recommended_dosage is the adjusted
placeholder range (500-1000 mg, twice daily).  The generic "Consult
clinical guidelines" text appears only when no amount can be parsed
(shown with the unparsable dosage "unclear"). -/
theorem unknown_medicine_amended :
    lookupGuidelines "unknownium" = none ∧
    (verify_dosage_rule "unknownium" "100mg" 40 70 "once daily").has_issues = true ∧
    (verify_dosage_rule "unknownium" "100mg" 40 70 "once daily").severity = .medium ∧
    (verify_dosage_rule "unknownium" "100mg" 40 70 "once daily").recommended_dosage
      = .range 500 1000 "mg" "twice daily" ∧
    (verify_dosage_rule "unknownium" "100mg" 40 70 "once daily").issues
      = [.belowRange 100 500 1000 "mg"] ∧
    (verify_dosage_rule "unknownium" "unclear" 40 70 "once daily").has_issues = true ∧
    (verify_dosage_rule "unknownium" "unclear" 40 70 "once daily").severity = .medium ∧
    (verify_dosage_rule "unknownium" "unclear" 40 70 "once daily").recommended_dosage
      = RecDosage.consultGuidelines := by
  decide

/-- Python's two-argument max over the severity ordinal never returns
something smaller than either argument. -/
theorem pyMaxSev_ge (a b : Severity) :
    sevIndex a ≤ sevIndex (pyMaxSev a b) ∧ sevIndex b ≤ sevIndex (pyMaxSev a b) := by
  cases a <;> cases b <;> exact ⟨by decide, by decide⟩

/-- Merging the weight-based sub-analysis never decreases severity. -/
theorem vd_stage2_severity_mono (m d : String) (a : Int) (w : ℚ) (f : String) :
    sevIndex (vd_stage1 m d a w f).severity
      ≤ sevIndex (vd_stage2 m d a w f).severity := by
  unfold vd_stage2
  split
  · split
    · exact (pyMaxSev_ge _ _).1
    · exact le_refl _
  · exact le_refl _

/-- Merging the frequency sub-analysis never decreases severity. -/
theorem vd_stage3_severity_mono (m d : String) (a : Int) (w : ℚ) (f : String) :
    sevIndex (vd_stage2 m d a w f).severity
      ≤ sevIndex (vd_stage3 m d a w f).severity := by
  unfold vd_stage3
  split
  · split
    · exact (pyMaxSev_ge _ _).1
    · exact le_refl _
  · exact le_refl _

/-- C8: in verify_dosage the severity is monotonic under merge over the
ordinal low < medium < high: merging the weight-based sub-analysis never
decreases the parent's severity, merging the frequency sub-analysis
never decreases it either, the final notes step leaves it unchanged, and
the merge operator is Python's max over the ordinal (at or above both
operands). -/
theorem severity_merge_monotonic (m d : String) (a : Int) (w : ℚ) (f : String) :
    sevIndex (vd_stage1 m d a w f).severity
      ≤ sevIndex (vd_stage2 m d a w f).severity ∧
    sevIndex (vd_stage2 m d a w f).severity
      ≤ sevIndex (vd_stage3 m d a w f).severity ∧
    (verify_dosage_rule m d a w f).severity = (vd_stage3 m d a w f).severity ∧
    (∀ s1 s2 : Severity,
      sevIndex s1 ≤ sevIndex (pyMaxSev s1 s2) ∧
      sevIndex s2 ≤ sevIndex (pyMaxSev s1 s2)) := by
  refine ⟨vd_stage2_severity_mono m d a w f, vd_stage3_severity_mono m d a w f,
    ?_, pyMaxSev_ge⟩
  unfold verify_dosage_rule
  cases h : lookupGuidelines (pyLower m) with
  | some gl => simp only [h]
  | none => simp only [h]

/-- A key outside a pattern table never appears among the keys of the
frequency dict built over that table. -/
theorem extractFreqAux_keys (search : String → String → Option String)
    (text : String) :
    ∀ ps : List (String × String), ∀ k,
      k ∈ (extractFreqAux search text ps).map Prod.fst → k ∈ ps.map Prod.fst := by
  intro ps
  induction ps with
  | nil =>
    intro k hk
    simp only [extractFreqAux] at hk
    cases hk
  | cons p ps ih =>
    intro k hk
    unfold extractFreqAux at hk
    cases hsearch : search p.2 (pyLower text) with
    | none =>
        rw [hsearch] at hk
        exact List.mem_cons_of_mem _ (ih k hk)
    | some g =>
        rw [hsearch] at hk
        simp only [List.map_cons] at hk
        rcases List.mem_cons.mp hk with h | h
        · exact List.mem_cons.mpr (Or.inl h)
        · exact List.mem_cons_of_mem _ (ih k h)

/-- C10: whatever the regex engine does, `extract_frequency` only ever
produces keys from the six-category table, so the
`frequencies.get('detected_frequency', 'Not specified')` lookup in
`check_dosage` always yields the default, verify_dosage is always
invoked with frequency 'Not specified', and its frequency-plausibility
check is skipped (the frequency-merge stage is the identity). -/
theorem check_dosage_frequency_always_default
    (search : String → String → Option String) (text : String) :
    check_dosage_frequency_arg search text = "Not specified" ∧
    (∀ k, k ∈ (extract_frequency search text).map Prod.fst →
       k ∈ frequency_patterns.map Prod.fst) ∧
    (∀ m d a w, vd_stage3 m d a w "Not specified"
       = vd_stage2 m d a w "Not specified") := by
  refine ⟨?_, extractFreqAux_keys search text frequency_patterns, ?_⟩
  · unfold check_dosage_frequency_arg extract_frequency
    apply extractFreqAux_get_default
    decide
  · intro m d a w
    unfold vd_stage3
    exact if_neg (fun h => h rfl)

/-- C10 witness: the theorem applied at an engine that matches every
pattern (so all six keys are produced) and a concrete text. -/
theorem check_dosage_frequency_always_default_witness :
    check_dosage_frequency_arg (fun _ _ => some "4") "take every 4 hours"
      = "Not specified" ∧
    "once_daily" ∈ frequency_patterns.map Prod.fst ∧
    vd_stage3 "aspirin" "100mg" 30 70 "Not specified"
      = vd_stage2 "aspirin" "100mg" 30 70 "Not specified" :=
  ⟨(check_dosage_frequency_always_default (fun _ _ => some "4") "take every 4 hours").1,
   (check_dosage_frequency_always_default (fun _ _ => some "4") "take every 4 hours").2.1
     "once_daily" (by decide),
   (check_dosage_frequency_always_default (fun _ _ => some "4") "take every 4 hours").2.2
     "aspirin" "100mg" 30 70⟩
